import Mathlib

/-!
Verification of the movie REST API controller layer
(src/server/src/controllers/movieController.ts and
src/server/src/utils/errorHandler.ts) as a shallow embedding.

Handlers are modelled as pure functions of the request parameters.  A
handler's interaction with the document store is represented by the
value it produces: either an early HTTP error response (sent before any
store round-trip), a raised exception (propagated to the error-handler
middleware), or a descriptor of the store operation it proceeds to
invoke.  External collaborators (the MongoDB driver's ObjectId validity
predicate, the JavaScript runtime's parseInt and Date.toISOString, the
Voyage AI fetch) are modelled from their documented behaviour and are
flagged as such in their doc comments.
-/

namespace Mflix

/-! ## JavaScript parseInt, modelled from ECMA-262 (runtime builtin)

Models the ECMAScript parseInt(string) builtin used by the controllers:
leading whitespace is skipped, an optional sign is consumed, a leading
0x/0X switches to hexadecimal, and the longest prefix of digits is
converted; if no digit is consumed the result is NaN (here: none). -/

def jsWhitespace (c : Char) : Bool :=
  c = ' ' || c = '\t' || c = '\n' || c = '\r' || c = '\x0b' || c = '\x0c'

def decDigitVal (c : Char) : Option Nat :=
  if 48 ≤ c.toNat && c.toNat ≤ 57 then some (c.toNat - 48) else none

def hexDigitVal (c : Char) : Option Nat :=
  if 48 ≤ c.toNat && c.toNat ≤ 57 then some (c.toNat - 48)
  else if 97 ≤ c.toNat && c.toNat ≤ 102 then some (c.toNat - 87)
  else if 65 ≤ c.toNat && c.toNat ≤ 70 then some (c.toNat - 55)
  else none

/-- Converts the longest digit prefix of the character list in the given
base; none when the first character is not a digit (parseInt's NaN). -/
def parseDigits (dv : Char → Option Nat) (base : Nat) (cs : List Char) : Option Nat :=
  let ds := cs.takeWhile (fun c => (dv c).isSome)
  if ds.isEmpty then none
  else some (ds.foldl (fun acc c => acc * base + ((dv c).getD 0)) 0)

/-- Models JavaScript parseInt with no radix argument; none stands for NaN. -/
def jsParseInt (s : String) : Option Int :=
  let cs := s.data.dropWhile jsWhitespace
  let signed : Int × List Char :=
    match cs with
    | c :: rest => if c = '-' then (-1, rest) else if c = '+' then (1, rest) else (1, cs)
    | [] => (1, [])
  let sign := signed.1
  let cs2 := signed.2
  match cs2 with
  | c0 :: c1 :: rest =>
    if c0 = '0' && (c1 = 'x' || c1 = 'X') then
      (parseDigits hexDigitVal 16 rest).map (fun n => sign * n)
    else
      (parseDigits decDigitVal 10 cs2).map (fun n => sign * n)
  | _ => (parseDigits decDigitVal 10 cs2).map (fun n => sign * n)

/-- Models the JavaScript expression p OR-ELSE d used as parseInt(x) || d:
NaN and 0 are both falsy, so both fall back to the default. -/
def jsOrDefault (p : Option Int) (d : Int) : Int :=
  match p with
  | none => d
  | some n => if n = 0 then d else n

/-! ## Effective limit computation per endpoint

Each definition mirrors one line of movieController.ts.  The request
parameter is an Option String; none models an absent query parameter,
for which the destructuring default applies. -/

/-- Models movieController.ts getAllMovies: limitNum with default "20",
Math.min(Math.max(parseInt(limit) || 20, 1), 100). -/
def getAllMovies_limitNum (limit : Option String) : Int :=
  min (max (jsOrDefault (jsParseInt (limit.getD "20")) 20) 1) 100

/-- Models movieController.ts searchMovies: limitNum with default "20",
Math.min(Math.max(parseInt(limit) || 20, 1), 100). -/
def searchMovies_limitNum (limit : Option String) : Int :=
  min (max (jsOrDefault (jsParseInt (limit.getD "20")) 20) 1) 100

/-- Models movieController.ts getMoviesWithMostRecentComments: limitNum
with default "10", Math.min(Math.max(parseInt(limit) || 10, 1), 50). -/
def getMoviesWithMostRecentComments_limitNum (limit : Option String) : Int :=
  min (max (jsOrDefault (jsParseInt (limit.getD "10")) 10) 1) 50

/-- Models movieController.ts getDirectorsWithMostMovies: limitNum with
default "20", Math.min(Math.max(parseInt(limit) || 20, 1), 100). -/
def getDirectorsWithMostMovies_limitNum (limit : Option String) : Int :=
  min (max (jsOrDefault (jsParseInt (limit.getD "20")) 20) 1) 100

/-- Models movieController.ts vectorSearchMovies: limitNum with
destructuring default "10" but fallback 20 in the || expression,
Math.min(Math.max(parseInt(limit) || 20, 1), 50). -/
def vectorSearchMovies_limitNum (limit : Option String) : Int :=
  min (max (jsOrDefault (jsParseInt (limit.getD "10")) 20) 1) 50

/-! ## ObjectId validity (MongoDB BSON library, external dependency) -/

def isHexChar (c : Char) : Bool :=
  (48 ≤ c.toNat && c.toNat ≤ 57) || (97 ≤ c.toNat && c.toNat ≤ 102) ||
  (65 ≤ c.toNat && c.toNat ≤ 70)

namespace ObjectId

/-- Models ObjectId.isValid of the MongoDB BSON library (external
dependency, the store's identifier-format predicate): a string is valid
when its length is 12 (raw byte string) or its length is 24 and every
character is a hexadecimal digit. -/
def isValid (s : String) : Bool :=
  s.length = 12 || (s.length = 24 && s.data.all isHexChar)

end ObjectId

/-! ## Handler outcomes -/

/-- An early error response sent with res.status(st).json(createErrorResponse(...)):
the HTTP status together with the arguments handed to createErrorResponse. -/
structure SentError where
  status : Nat
  message : String
  code : Option String
  details : Option String
deriving DecidableEq, Repr

/-- Result of a handler's validation phase: an early error response (the
handler returns before any store round-trip), a raised exception
(propagated to the errorHandler middleware), or the store operation the
handler proceeds to invoke. -/
inductive Phase1 (α : Type) where
  | respond (e : SentError)
  | raise (msg : String)
  | store (a : α)
deriving DecidableEq, Repr

def invalidIdResponse : SentError :=
  ⟨400, "Invalid movie ID format", some "INVALID_OBJECT_ID", none⟩

/-! ## Filters and store operation descriptors -/

/-- A value in a client-supplied filter/update object.  idIn models the
object shape with key $in holding an array of strings (the only shape
the controllers treat specially); idInObjectIds is the same entry after
conversion of every string to a native ObjectId. -/
inductive FVal where
  | str (s : String)
  | num (q : ℚ)
  | idIn (ids : List String)
  | idInObjectIds (ids : List String)
  | other
deriving DecidableEq, Repr

abbrev Filter : Type := List (String × FVal)

/-- Descriptor of the single store operation a handler invokes. -/
inductive MovieStoreOp where
  | findOneById (id : String)
  | updateOneById (id : String) (set : Filter)
  | deleteOneById (id : String)
  | findOneAndDeleteById (id : String)
  | updateMany (filter : Filter) (set : Filter)
  | deleteMany (filter : Filter)
  | aggregateComments (limitNum : Int) (idFilter : Option String) (finalLimit : Int)
deriving DecidableEq, Repr

/-! ## Single-document handlers (movieController.ts) -/

/-- Models getMovieById: validate the id, then findOne by _id. -/
def getMovieById (id : String) : Phase1 MovieStoreOp :=
  if !(ObjectId.isValid id) then .respond invalidIdResponse
  else .store (.findOneById id)

/-- Models updateMovie: validate the id, reject an empty update body,
then updateOne by _id with a $set of the body. -/
def updateMovie (id : String) (updateData : Filter) : Phase1 MovieStoreOp :=
  if !(ObjectId.isValid id) then .respond invalidIdResponse
  else if updateData.length = 0 then
    .respond ⟨400, "No update data provided", some "NO_UPDATE_DATA", none⟩
  else .store (.updateOneById id updateData)

/-- Models deleteMovie: validate the id, then deleteOne by _id. -/
def deleteMovie (id : String) : Phase1 MovieStoreOp :=
  if !(ObjectId.isValid id) then .respond invalidIdResponse
  else .store (.deleteOneById id)

/-- Models findAndDeleteMovie: validate the id, then findOneAndDelete. -/
def findAndDeleteMovie (id : String) : Phase1 MovieStoreOp :=
  if !(ObjectId.isValid id) then .respond invalidIdResponse
  else .store (.findOneAndDeleteById id)

/-- Models getMoviesWithMostRecentComments up to the aggregate call.
The movieId query parameter is only validated when it is a non-empty
string (JavaScript truthiness of the guard movieId AND typeof movieId
is string); the stage-6 cap is 50 when movieId is truthy and 20
otherwise. -/
def getMoviesWithMostRecentComments (limit movieId : Option String) :
    Phase1 MovieStoreOp :=
  let limitNum := getMoviesWithMostRecentComments_limitNum limit
  match movieId with
  | some mid =>
    if mid ≠ "" then
      if !(ObjectId.isValid mid) then .respond invalidIdResponse
      else .store (.aggregateComments limitNum (some mid) 50)
    else .store (.aggregateComments limitNum none 20)
  | none => .store (.aggregateComments limitNum none 20)

/-! ## Batch handlers (movieController.ts) -/

/-- Models the Array.map over filter._id.$in: each string is converted
to an ObjectId, throwing at the first invalid entry. -/
def convertIdInList : List String → Except String (List String)
  | [] => .ok []
  | id :: rest =>
    if ObjectId.isValid id then
      match convertIdInList rest with
      | .ok l => .ok (id :: l)
      | .error e => .error e
    else .error ("Invalid ObjectId: " ++ id)

/-- Models the processedFilter construction shared by updateMoviesBatch
and deleteMoviesBatch: when the filter has an _id entry of shape
\x7b $in: [strings] \x7d, convert the array; otherwise pass the filter
through unchanged. -/
def processIdFilter (filter : Filter) : Except String Filter :=
  match filter.lookup "_id" with
  | some (.idIn ids) =>
    match convertIdInList ids with
    | .ok objIds =>
      .ok (filter.map (fun kv => if kv.1 = "_id" then ("_id", FVal.idInObjectIds objIds) else kv))
    | .error e => .error e
  | _ => .ok filter

/-- Models updateMoviesBatch: both filter and update must be present,
the update must be non-empty, the _id.$in entries are converted (throwing
on the first invalid one), then updateMany runs. -/
def updateMoviesBatch (filter update : Option Filter) : Phase1 MovieStoreOp :=
  match filter, update with
  | none, _ =>
    .respond ⟨400, "Both filter and update objects are required", some "MISSING_REQUIRED_FIELDS", none⟩
  | some _, none =>
    .respond ⟨400, "Both filter and update objects are required", some "MISSING_REQUIRED_FIELDS", none⟩
  | some f, some u =>
    if u.length = 0 then
      .respond ⟨400, "Update object cannot be empty", some "EMPTY_UPDATE", none⟩
    else
      match processIdFilter f with
      | .error e => .raise e
      | .ok pf => .store (.updateMany pf u)

def missingFilterResponse : SentError :=
  ⟨400, "Filter object is required and cannot be empty. This prevents accidental deletion of all documents.",
   some "MISSING_FILTER", none⟩

/-- Models deleteMoviesBatch: an absent or empty filter is rejected with
MISSING_FILTER before any store call, the _id.$in entries are converted
(throwing on the first invalid one), then deleteMany runs. -/
def deleteMoviesBatch (filter : Option Filter) : Phase1 MovieStoreOp :=
  match filter with
  | none => .respond missingFilterResponse
  | some f =>
    if f.length = 0 then .respond missingFilterResponse
    else
      match processIdFilter f with
      | .error e => .raise e
      | .ok pf => .store (.deleteMany pf)

/-! ## Compound search handler (movieController.ts searchMovies) -/

/-- One clause of the $search compound operator: phrase for plot and
fullplot, fuzzy text for directors, writers and cast. -/
inductive SearchClause where
  | phrase (query path : String)
  | text (query path : String) (maxEdits prefixLen : Nat)
deriving DecidableEq, Repr

structure SearchQuery where
  plot : Option String
  fullplot : Option String
  directors : Option String
  writers : Option String
  cast : Option String
  limit : Option String
  skip : Option String
  searchOperator : Option String
deriving DecidableEq, Repr

/-- JavaScript truthiness of an optional string parameter: absent and
empty strings are falsy. -/
def jsTruthy (o : Option String) : Bool :=
  match o with
  | some s => s ≠ ""
  | none => false

def validOperators : List String := ["must", "should", "mustNot", "filter"]

def apos : String := String.singleton (Char.ofNat 39)

def invalidOperatorMessage (op : String) : String :=
  "Invalid search_operator " ++ apos ++ op ++ apos ++ ". Must be one of: " ++
  String.intercalate ", " validOperators

/-- Models the searchPhrases array construction: one clause per supplied
(truthy) field, in source order. -/
def buildSearchPhrases (q : SearchQuery) : List SearchClause :=
  (if jsTruthy q.plot then [SearchClause.phrase (q.plot.getD "") "plot"] else []) ++
  (if jsTruthy q.fullplot then [SearchClause.phrase (q.fullplot.getD "") "fullplot"] else []) ++
  (if jsTruthy q.directors then [SearchClause.text (q.directors.getD "") "directors" 1 5] else []) ++
  (if jsTruthy q.writers then [SearchClause.text (q.writers.getD "") "writers" 1 5] else []) ++
  (if jsTruthy q.cast then [SearchClause.text (q.cast.getD "") "cast" 1 5] else [])

/-- The aggregation pipeline built by searchMovies: the compound $search
stage parameters plus the $facet pagination parameters. -/
structure SearchPipeline where
  operator : String
  clauses : List SearchClause
  skipNum : Int
  limitNum : Int
deriving DecidableEq, Repr

/-- Models searchMovies: the search operator is validated first (with
destructuring default "must"), then the clause list is built and an
empty list is rejected with NO_SEARCH_PARAMETERS, then pagination is
parsed and the pipeline is handed to the store. -/
def searchMovies (q : SearchQuery) : Phase1 SearchPipeline :=
  let searchOperator := q.searchOperator.getD "must"
  if !(validOperators.contains searchOperator) then
    .respond ⟨400, invalidOperatorMessage searchOperator, some "INVALID_SEARCH_OPERATOR", none⟩
  else
    let searchPhrases := buildSearchPhrases q
    if searchPhrases.length = 0 then
      .respond ⟨400, "At least one search parameter must be provided", some "NO_SEARCH_PARAMETERS", none⟩
    else
      let limitNum := searchMovies_limitNum q.limit
      let skipNum := max (jsOrDefault (jsParseInt (q.skip.getD "0")) 0) 0
      .store ⟨searchOperator, searchPhrases, skipNum, limitNum⟩

/-! ## Vector search handler (movieController.ts vectorSearchMovies and
generateVoyageEmbedding) -/

structure VoyageEmbeddingEntry where
  embedding : Option (List ℚ)
deriving DecidableEq

structure VoyageAIBody where
  data : Option (List VoyageEmbeddingEntry)
deriving DecidableEq

/-- Outcome of the fetch call to the Voyage AI embeddings endpoint
(external collaborator, supplied as an oracle): a parsed 2xx body, a
non-2xx response with its status and text, or a transport failure. -/
inductive FetchResult where
  | ok (body : VoyageAIBody)
  | httpError (status : Nat) (text : String)
  | networkError (message : String)
deriving DecidableEq

def invalidFormatMessage : String := "Invalid response format from Voyage AI API"

/-- Models generateVoyageEmbedding with the fetch outcome supplied as an
oracle: a non-ok response throws with the status in the message, a
malformed body throws the invalid-format message, and every throw is
re-wrapped by the catch block with the prefix "Failed to generate
embedding: ". -/
def generateVoyageEmbedding (fetchResult : FetchResult) : Except String (List ℚ) :=
  match fetchResult with
  | .httpError status text =>
    .error ("Failed to generate embedding: Voyage AI API returned status " ++
            toString status ++ ": " ++ text)
  | .networkError msg => .error ("Failed to generate embedding: " ++ msg)
  | .ok body =>
    match body.data with
    | none => .error ("Failed to generate embedding: " ++ invalidFormatMessage)
    | some [] => .error ("Failed to generate embedding: " ++ invalidFormatMessage)
    | some (first :: _) =>
      match first.embedding with
      | none => .error ("Failed to generate embedding: " ++ invalidFormatMessage)
      | some emb => .ok emb

/-- The $vectorSearch stage parameters built in step 1 of
vectorSearchMovies. -/
structure VectorPipeline where
  index : String
  path : String
  queryVector : List ℚ
  numCandidates : Int
  limit : Int
deriving DecidableEq

def buildVectorSearchPipeline (limitNum : Int) (queryVector : List ℚ) : VectorPipeline :=
  ⟨"vector_index", "plot_embedding_voyage_3_large", queryVector, limitNum * 20, limitNum⟩

def serviceUnavailableResponse : SentError :=
  ⟨400, "Vector search unavailable: VOYAGE_API_KEY not configured. Please add your API key to the .env file",
   some "SERVICE_UNAVAILABLE", none⟩

/-- Models String.prototype.trim of the JavaScript runtime: strip
whitespace from both ends. -/
def jsTrim (s : String) : List Char :=
  ((s.data.dropWhile jsWhitespace).reverse.dropWhile jsWhitespace).reverse

/-- Models vectorSearchMovies up to the first store round-trip: query
and API-key validation, limit normalization, then the embedding call;
an embedding failure is caught by the handler's catch block and mapped
to a 500 response with code VECTOR_SEARCH_ERROR, and a successful
embedding proceeds to the $vectorSearch pipeline. -/
def vectorSearchMovies (q limit apiKey : Option String) (fetchResult : FetchResult) :
    Phase1 VectorPipeline :=
  match q with
  | none => .respond ⟨400, "Search query is required", some "MISSING_QUERY_PARAMETER", none⟩
  | some qs =>
    if (jsTrim qs).length = 0 then
      .respond ⟨400, "Search query is required", some "MISSING_QUERY_PARAMETER", none⟩
    else
      match apiKey with
      | none => .respond serviceUnavailableResponse
      | some key =>
        if (jsTrim key).length = 0 then .respond serviceUnavailableResponse
        else
          let limitNum := vectorSearchMovies_limitNum limit
          match generateVoyageEmbedding fetchResult with
          | .error e =>
            .respond ⟨500, "Error performing vector search", some "VECTOR_SEARCH_ERROR", some e⟩
          | .ok queryVector => .store (buildVectorSearchPipeline limitNum queryVector)

/-! ## Vector search merge (steps 2 and 3 of vectorSearchMovies) -/

/-- One row of the phase-1 vector search result: the document id
rendered as a string and its similarity score. -/
structure VectorHit where
  oid : String
  score : ℚ
deriving DecidableEq

/-- One row of the step-2 re-fetch from the movies collection, after
the $project stage (optional fields stay optional). -/
structure FetchedMovie where
  oid : String
  title : Option String
  plot : Option String
  poster : Option String
  year : Option Int
  genres : Option (List String)
  directors : Option (List String)
  cast : Option (List String)
deriving DecidableEq

/-- The merged output row of vectorSearchMovies. -/
structure VectorSearchResult where
  oid : String
  title : String
  plot : Option String
  poster : Option String
  year : Option Int
  genres : List String
  directors : List String
  cast : List String
  score : ℚ
deriving DecidableEq

/-- Map.set semantics: overwrite an existing key, append otherwise. -/
def mapSet (m : List (String × ℚ)) (k : String) (v : ℚ) : List (String × ℚ) :=
  if m.any (fun kv => kv.1 = k) then m.map (fun kv => if kv.1 = k then (k, v) else kv)
  else m ++ [(k, v)]

/-- Map.get semantics over the association list. -/
def mapGet (m : List (String × ℚ)) (k : String) : Option ℚ :=
  (m.find? (fun kv => kv.1 = k)).map (fun kv => kv.2)

/-- Models the scoreMap construction: scoreMap.set(id.toString(), score)
for each vector hit. -/
def buildScoreMap (vectorResults : List VectorHit) : List (String × ℚ) :=
  vectorResults.foldl (fun m h => mapSet m h.oid h.score) []

/-- JavaScript expression v OR-ELSE 0 on the looked-up score: an absent
entry and a zero score both give 0. -/
def jsOrZero (o : Option ℚ) : ℚ :=
  match o with
  | none => 0
  | some v => if v = 0 then 0 else v

/-- Models the step-3 per-movie merge: defaulted fields and the score
re-attached by identifier lookup. -/
def attachScore (m : List (String × ℚ)) (movie : FetchedMovie) : VectorSearchResult :=
  { oid := movie.oid
    title := movie.title.getD ""
    plot := movie.plot
    poster := movie.poster
    year := movie.year
    genres := movie.genres.getD []
    directors := movie.directors.getD []
    cast := movie.cast.getD []
    score := jsOrZero (mapGet m movie.oid) }

/-- Order produced by the comparator (a, b) =\x3e b.score - a.score:
descending by score. -/
def scoreDesc (a b : VectorSearchResult) : Prop := b.score ≤ a.score

instance : DecidableRel scoreDesc :=
  fun a b => inferInstanceAs (Decidable (b.score ≤ a.score))

instance : IsTotal VectorSearchResult scoreDesc :=
  ⟨fun a b => le_total b.score a.score⟩

instance : IsTrans VectorSearchResult scoreDesc :=
  ⟨fun _ _ _ hab hbc => le_trans hbc hab⟩

/-- Models the finalResults construction of vectorSearchMovies: attach
scores by identifier lookup, then sort descending by score. -/
def vectorSearchMovies_finalResults (vectorResults : List VectorHit)
    (movieResults : List FetchedMovie) : List VectorSearchResult :=
  List.insertionSort scoreDesc (movieResults.map (attachScore (buildScoreMap vectorResults)))

/-! ## Response envelope (src/server/src/utils/errorHandler.ts) -/

/-- Decimal digit character for the low digit of a natural number. -/
def digitChar (d : Nat) : Char :=
  match d % 10 with
  | 0 => '0' | 1 => '1' | 2 => '2' | 3 => '3' | 4 => '4'
  | 5 => '5' | 6 => '6' | 7 => '7' | 8 => '8' | _ => '9'

def pad2 (n : Nat) : List Char := [digitChar (n / 10), digitChar n]

def pad3 (n : Nat) : List Char := [digitChar (n / 100), digitChar (n / 10), digitChar n]

def pad4 (n : Nat) : List Char :=
  [digitChar (n / 1000), digitChar (n / 100), digitChar (n / 10), digitChar n]

/-- Civil date from a day count since 1970-01-01 (Gregorian calendar,
the standard era-based conversion): returns (year, month, day). -/
def civilFromDays (days : Nat) : Nat × Nat × Nat :=
  let z := days + 719468
  let era := z / 146097
  let doe := z % 146097
  let yoe := (doe - doe / 1460 + doe / 36524 - doe / 146096) / 365
  let y := yoe + era * 400
  let doy := doe - (365 * yoe + yoe / 4 - yoe / 100)
  let mp := (5 * doy + 2) / 153
  let d := doy - (153 * mp + 2) / 5 + 1
  let m := if mp < 10 then mp + 3 else mp - 9
  (if m ≤ 2 then y + 1 else y, m, d)

/-- Models ECMAScript Date.prototype.toISOString (runtime builtin, an
external collaborator) for a non-negative epoch-millisecond timestamp
whose year is in 0–9999, where the builtin renders the 24-character
format YYYY-MM-DDTHH:mm:ss.sssZ.  Each component is padded from its low
decimal digits; for the in-range components the conversion produces,
this is exactly the zero-padded decimal rendering the builtin uses. -/
def toISOString (t : Nat) : String :=
  let ymd := civilFromDays (t / 86400000)
  String.mk
    (pad4 ymd.1 ++ '-' :: pad2 ymd.2.1 ++ '-' :: pad2 ymd.2.2 ++
     'T' :: pad2 (t / 3600000 % 24) ++ ':' :: pad2 (t / 60000 % 60) ++
     ':' :: pad2 (t / 1000 % 60) ++ '.' :: pad3 (t % 1000) ++ ['Z'])

/-- Checks the 24-character ISO-8601 timestamp shape
YYYY-MM-DDTHH:mm:ss.sssZ. -/
def isoShape : List Char → Bool
  | [y1, y2, y3, y4, s1, mo1, mo2, s2, d1, d2, tc, h1, h2, c1, mi1, mi2, c2, se1, se2, dot, f1, f2, f3, zc] =>
    y1.isDigit && y2.isDigit && y3.isDigit && y4.isDigit && (s1 == '-') &&
    mo1.isDigit && mo2.isDigit && (s2 == '-') && d1.isDigit && d2.isDigit &&
    (tc == 'T') && h1.isDigit && h2.isDigit && (c1 == ':') &&
    mi1.isDigit && mi2.isDigit && (c2 == ':') && se1.isDigit && se2.isDigit &&
    (dot == '.') && f1.isDigit && f2.isDigit && f3.isDigit && (zc == 'Z')
  | _ => false

def isISO8601 (s : String) : Bool := isoShape s.data

/-- The error object nested in an error envelope. -/
structure ErrorDetail where
  message : String
  code : Option String
  details : Option String
deriving DecidableEq

/-- The uniform response envelope.  The TypeScript SuccessResponse has
no error field and the ErrorResponse has no data field; the union of
the two shapes is embedded as one structure with optional data and
error. -/
structure ApiResponse (α : Type) where
  success : Bool
  message : String
  data : Option α
  error : Option ErrorDetail
  timestamp : String

/-- Models createSuccessResponse; the clock reading at construction
time is passed explicitly (new Date() at the moment of the call). -/
def createSuccessResponse {α : Type} (now : Nat) (data : α) (message : Option String) :
    ApiResponse α :=
  { success := true
    message := message.getD "Operation completed successfully"
    data := some data
    error := none
    timestamp := toISOString now }

/-- Models createErrorResponse; the clock reading at construction time
is passed explicitly (new Date() at the moment of the call). -/
def createErrorResponse {α : Type} (now : Nat) (message : String) (code : Option String)
    (details : Option String) : ApiResponse α :=
  { success := false
    message := message
    data := none
    error := some ⟨message, code, details⟩
    timestamp := toISOString now }

/-! ## Year statistics pipeline (movieController.ts getMoviesByYearWithStats) -/

/-- A BSON value, restricted to the shapes the year-statistics pipeline
inspects.  int covers the integral numeric BSON types (int, long) and
double the floating-point type. -/
inductive BVal where
  | null
  | missing
  | int (n : Int)
  | double (q : ℚ)
  | str (s : String)
  | other
deriving DecidableEq

/-- The three document fields the pipeline reads. -/
structure MovieDoc where
  year : BVal
  imdbRating : BVal
  imdbVotes : BVal
deriving DecidableEq

/-- The $type aggregation operator's name for a value; a missing path
yields "missing". -/
def bsonTypeName : BVal → String
  | .null => "null"
  | .missing => "missing"
  | .int _ => "int"
  | .double _ => "double"
  | .str _ => "string"
  | .other => "object"

/-- Numeric reading of a BSON value, none for non-numeric values. -/
def numVal : BVal → Option ℚ
  | .int n => some (n : ℚ)
  | .double q => some q
  | _ => none

/-- The stage-1 $match predicate: year has BSON type "number" (any
numeric type) and lies in [1800, 2030]. -/
def yearMatch : BVal → Bool
  | .int n => 1800 ≤ n && n ≤ 2030
  | .double q => 1800 ≤ q && q ≤ 2030
  | _ => false

/-- Aggregation $eq against null; a missing field path compares equal
to null in aggregation expressions. -/
def aggEqNull : BVal → Bool
  | .null => true
  | .missing => true
  | _ => false

/-- The guard of the $cond feeding the rating accumulators: rating is
not null, not the empty string, and of BSON type double; otherwise the
branch yields $$REMOVE and the accumulator skips the document. -/
def ratingQualifies (r : BVal) : Bool :=
  !aggEqNull r && !(r == BVal.str "") && (bsonTypeName r == "double")

/-- The rating a document contributes to the rating accumulators, none
when the $cond yields $$REMOVE. -/
def ratingContribution (doc : MovieDoc) : Option ℚ :=
  if ratingQualifies doc.imdbRating then numVal doc.imdbRating else none

/-- The vote count a document contributes to the $sum accumulator,
which ignores non-numeric and missing values (they add 0). -/
def votesContribution (doc : MovieDoc) : ℚ :=
  (numVal doc.imdbVotes).getD 0

/-- The running state of the $group accumulators for one year group. -/
structure YearAcc where
  movieCount : Nat
  ratingSum : ℚ
  ratingCount : Nat
  highestRating : Option ℚ
  lowestRating : Option ℚ
  totalVotes : ℚ
deriving DecidableEq

def initYearAcc : YearAcc := ⟨0, 0, 0, none, none, 0⟩

/-- One $group accumulation step for a document of the group: $sum 1
for the count, $avg / $max / $min over the conditional rating (skipping
$$REMOVE), and $sum over the votes. -/
def accStep (acc : YearAcc) (doc : MovieDoc) : YearAcc :=
  let rating := ratingContribution doc
  { movieCount := acc.movieCount + 1
    ratingSum := acc.ratingSum + rating.getD 0
    ratingCount := acc.ratingCount + (if rating.isSome then 1 else 0)
    highestRating :=
      match acc.highestRating, rating with
      | h, none => h
      | none, some v => some v
      | some h, some v => some (max h v)
    lowestRating :=
      match acc.lowestRating, rating with
      | l, none => l
      | none, some v => some v
      | some l, some v => some (min l v)
    totalVotes := acc.totalVotes + votesContribution doc }

/-- Models the $round [x, 2] aggregation operator: round half to even
at two decimal places. -/
def roundHalfEven2 (q : ℚ) : ℚ :=
  let x := q * 100
  let f : Int := Int.floor x
  let frac := x - (f : ℚ)
  let n : Int :=
    if frac < 1 / 2 then f
    else if 1 / 2 < frac then f + 1
    else if f % 2 = 0 then f else f + 1
  (n : ℚ) / 100

/-- One output row of the year-statistics report after the $project
stage. -/
structure YearStats where
  year : ℚ
  movieCount : Nat
  averageRating : Option ℚ
  highestRating : Option ℚ
  lowestRating : Option ℚ
  totalVotes : ℚ
deriving DecidableEq

/-- The $group output for one year over the stage-1-filtered documents:
the accumulators run document by document, then $avg divides the sum by
the count (null when no value survived the $cond) and $round rounds the
average; $round of null stays null. -/
def groupStats (docs : List MovieDoc) (y : ℚ) : YearStats :=
  let grp := docs.filter (fun d => numVal d.year == some y)
  let acc := grp.foldl accStep initYearAcc
  { year := y
    movieCount := acc.movieCount
    averageRating :=
      if acc.ratingCount = 0 then none
      else some (roundHalfEven2 (acc.ratingSum / (acc.ratingCount : ℚ)))
    highestRating := acc.highestRating
    lowestRating := acc.lowestRating
    totalVotes := acc.totalVotes }

/-- Sort order of stage 4: year descending. -/
def yearDesc (a b : YearStats) : Prop := b.year ≤ a.year

instance : DecidableRel yearDesc :=
  fun a b => inferInstanceAs (Decidable (b.year ≤ a.year))

instance : IsTotal YearStats yearDesc := ⟨fun a b => le_total b.year a.year⟩

instance : IsTrans YearStats yearDesc := ⟨fun _ _ _ hab hbc => le_trans hbc hab⟩

/-- The year value a matched document groups under (stage-1 filtering
guarantees the year is numeric). -/
def yearKeyOf (doc : MovieDoc) : ℚ := (numVal doc.year).getD 0

/-- The documents surviving the stage-1 quality filter. -/
def eligibleDocs (docs : List MovieDoc) : List MovieDoc :=
  docs.filter (fun d => yearMatch d.year)

/-- Models the getMoviesByYearWithStats pipeline as a function of the
collection contents: $match on the year quality filter, $group by year
with the statistics accumulators, $project the rounded average, $sort
by year descending.  $group emits one group per distinct key; the group
order before $sort is unspecified by the store, and the $sort stage
fixes the final order. -/
def getMoviesByYearWithStats (docs : List MovieDoc) : List YearStats :=
  let eligible := eligibleDocs docs
  let keys := (eligible.map yearKeyOf).dedup
  List.insertionSort yearDesc (keys.map (groupStats eligible))

/-- The eligible documents of the year-y group. -/
def yearGroup (docs : List MovieDoc) (y : ℚ) : List MovieDoc :=
  (eligibleDocs docs).filter (fun d => numVal d.year == some y)

/-- The ratings of the year-y group that survive the $cond guard. -/
def yearRatings (docs : List MovieDoc) (y : ℚ) : List ℚ :=
  (yearGroup docs y).filterMap ratingContribution

/-- Maximum accumulation over an optional running value, as performed
by the $max accumulator on the surviving ratings. -/
def optMax (a : Option ℚ) (v : ℚ) : Option ℚ :=
  match a with
  | none => some v
  | some h => some (max h v)

/-- Minimum accumulation over an optional running value, as performed
by the $min accumulator on the surviving ratings. -/
def optMin (a : Option ℚ) (v : ℚ) : Option ℚ :=
  match a with
  | none => some v
  | some l => some (min l v)

/-! ## Helper lemmas -/

theorem clamp_cases (p : Option Int) (d cap : Int) (hd1 : 1 ≤ d) (hdc : d ≤ cap) :
    (p = none → min (max (jsOrDefault p d) 1) cap = d) ∧
    (p = some 0 → min (max (jsOrDefault p d) 1) cap = d) ∧
    (∀ v : Int, p = some v → v < 0 → min (max (jsOrDefault p d) 1) cap = 1) ∧
    (∀ v : Int, p = some v → cap < v → min (max (jsOrDefault p d) 1) cap = cap) ∧
    (∀ v : Int, p = some v → 1 ≤ v → v ≤ cap → min (max (jsOrDefault p d) 1) cap = v) := by
  refine ⟨fun h => ?_, fun h => ?_, fun v h hv => ?_, fun v h hv => ?_, fun v h h1 h2 => ?_⟩ <;>
    subst h <;>
    simp only [jsOrDefault] <;>
    (rw [max_def, min_def]; split_ifs <;> omega)

theorem convertIdInList_error (ids : List String) (bad : String)
    (hmem : bad ∈ ids) (hbad : ObjectId.isValid bad = false) :
    ∃ e, convertIdInList ids = .error e := by
  induction ids with
  | nil => cases hmem
  | cons id rest ih =>
    by_cases hv : ObjectId.isValid id
    · rcases List.mem_cons.mp hmem with h | h
      · rw [h] at hbad; rw [hbad] at hv; cases hv
      · obtain ⟨e, he⟩ := ih h
        exact ⟨e, by simp [convertIdInList, hv, he]⟩
    · exact ⟨"Invalid ObjectId: " ++ id, by simp [convertIdInList, hv]⟩

theorem processIdFilter_error (f : Filter) (ids : List String) (bad : String)
    (hf : f.lookup "_id" = some (.idIn ids)) (hmem : bad ∈ ids)
    (hbad : ObjectId.isValid bad = false) :
    ∃ e, processIdFilter f = .error e := by
  obtain ⟨e, he⟩ := convertIdInList_error ids bad hmem hbad
  refine ⟨e, ?_⟩
  simp [processIdFilter, hf, he]

/-! ## Claim theorems -/

/-- C1 counterexample: a compound-search request with zero supplied
text fields and an invalid searchOperator is answered with code
INVALID_SEARCH_OPERATOR, not NO_SEARCH_PARAMETERS: the operator is
validated before the empty-clause check. -/
theorem searchMovies_zeroFields_invalidOperator :
    searchMovies ⟨none, none, none, none, none, none, none, some "bogus"⟩ =
      .respond ⟨400, invalidOperatorMessage "bogus", some "INVALID_SEARCH_OPERATOR", none⟩ ∧
    (some "INVALID_SEARCH_OPERATOR" : Option String) ≠ some "NO_SEARCH_PARAMETERS" := by
  exact ⟨rfl, by decide⟩

/-- C1 (amended): for every compound-search request in which none of
the five text fields is supplied and the searchOperator is valid
(absent or in the allow-list), the handler answers 400 with code
NO_SEARCH_PARAMETERS, regardless of the remaining parameters. -/
theorem searchMovies_noSearchParameters (q : SearchQuery)
    (hop : validOperators.contains (q.searchOperator.getD "must") = true)
    (h1 : jsTruthy q.plot = false) (h2 : jsTruthy q.fullplot = false)
    (h3 : jsTruthy q.directors = false) (h4 : jsTruthy q.writers = false)
    (h5 : jsTruthy q.cast = false) :
    searchMovies q =
      .respond ⟨400, "At least one search parameter must be provided",
        some "NO_SEARCH_PARAMETERS", none⟩ := by
  have hop2 : q.searchOperator.getD "must" ∈ validOperators := by
    simpa using hop
  simp [searchMovies, buildSearchPhrases, hop2, h1, h2, h3, h4, h5]

/-- C1 witness: concrete request with limit, skip and a valid operator
supplied but no text field. -/
theorem searchMovies_noSearchParameters_witness :
    searchMovies ⟨none, none, none, none, none, some "5", some "7", some "should"⟩ =
      .respond ⟨400, "At least one search parameter must be provided",
        some "NO_SEARCH_PARAMETERS", none⟩ :=
  searchMovies_noSearchParameters _ (by decide) (by decide) (by decide) (by decide)
    (by decide) (by decide)

/-- C2 counterexample: the list endpoint's limit "0" parses to the
integer 0, which lies below [1, 100], yet the effective limit is the
default 20, not the nearest bound 1: 0 is falsy, so parseInt(limit) ||
20 replaces it with the default before clamping. -/
theorem getAllMovies_limitNum_zero_input :
    getAllMovies_limitNum (some "0") = 20 ∧ (20 : Int) ≠ 1 := by
  exact ⟨by decide, by decide⟩

/-- C2 (amended): for every limit string, a parsed integer that is
negative clamps to 1, one above the endpoint ceiling clamps to the
ceiling (100 for list, search and directors, 50 for comment
aggregation), an in-range one is used as is, and non-numeric input or
input parsing to 0 yields the endpoint default (20, 20, 10, 20). -/
theorem limitNum_clamped (s : String) :
    (jsParseInt s = none →
      getAllMovies_limitNum (some s) = 20 ∧ searchMovies_limitNum (some s) = 20 ∧
      getMoviesWithMostRecentComments_limitNum (some s) = 10 ∧
      getDirectorsWithMostMovies_limitNum (some s) = 20) ∧
    (jsParseInt s = some 0 →
      getAllMovies_limitNum (some s) = 20 ∧ searchMovies_limitNum (some s) = 20 ∧
      getMoviesWithMostRecentComments_limitNum (some s) = 10 ∧
      getDirectorsWithMostMovies_limitNum (some s) = 20) ∧
    (∀ v : Int, jsParseInt s = some v → v < 0 →
      getAllMovies_limitNum (some s) = 1 ∧ searchMovies_limitNum (some s) = 1 ∧
      getMoviesWithMostRecentComments_limitNum (some s) = 1 ∧
      getDirectorsWithMostMovies_limitNum (some s) = 1) ∧
    (∀ v : Int, jsParseInt s = some v → 100 < v →
      getAllMovies_limitNum (some s) = 100 ∧ searchMovies_limitNum (some s) = 100 ∧
      getDirectorsWithMostMovies_limitNum (some s) = 100) ∧
    (∀ v : Int, jsParseInt s = some v → 50 < v →
      getMoviesWithMostRecentComments_limitNum (some s) = 50) ∧
    (∀ v : Int, jsParseInt s = some v → 1 ≤ v → v ≤ 100 →
      getAllMovies_limitNum (some s) = v ∧ searchMovies_limitNum (some s) = v ∧
      getDirectorsWithMostMovies_limitNum (some s) = v) ∧
    (∀ v : Int, jsParseInt s = some v → 1 ≤ v → v ≤ 50 →
      getMoviesWithMostRecentComments_limitNum (some s) = v) := by
  have hA := clamp_cases (jsParseInt s) 20 100 (by norm_num) (by norm_num)
  have hC := clamp_cases (jsParseInt s) 10 50 (by norm_num) (by norm_num)
  exact ⟨fun h => ⟨hA.1 h, hA.1 h, hC.1 h, hA.1 h⟩,
    fun h => ⟨hA.2.1 h, hA.2.1 h, hC.2.1 h, hA.2.1 h⟩,
    fun v h hv => ⟨hA.2.2.1 v h hv, hA.2.2.1 v h hv, hC.2.2.1 v h hv, hA.2.2.1 v h hv⟩,
    fun v h hv => ⟨hA.2.2.2.1 v h hv, hA.2.2.2.1 v h hv, hA.2.2.2.1 v h hv⟩,
    fun v h hv => hC.2.2.2.1 v h hv,
    fun v h h1 h2 => ⟨hA.2.2.2.2 v h h1 h2, hA.2.2.2.2 v h h1 h2, hA.2.2.2.2 v h h1 h2⟩,
    fun v h h1 h2 => hC.2.2.2.2 v h h1 h2⟩

/-- C2 witness: limit "500" clamps to the ceiling 100 on the list
endpoint and non-numeric "abc" yields the comment-aggregation default
10. -/
theorem limitNum_clamped_witness :
    getAllMovies_limitNum (some "500") = 100 ∧
    getMoviesWithMostRecentComments_limitNum (some "abc") = 10 := by
  have h := limitNum_clamped "500"
  have h2 := limitNum_clamped "abc"
  exact ⟨(h.2.2.2.1 500 (by decide) (by decide)).1, (h2.1 (by decide)).2.2.1⟩

/-- C3 (code bug): when the embedding provider replies with HTTP 401 or
any other non-2xx status, the handler answers 500 with code
VECTOR_SEARCH_ERROR in both cases, not the 401 passthrough and 503 that
the claim (and the repository's own unit tests) require. -/
theorem vectorSearch_providerFailure_returns500 :
    vectorSearchMovies (some "test") none (some "key") (.httpError 401 "Unauthorized") =
      .respond ⟨500, "Error performing vector search", some "VECTOR_SEARCH_ERROR",
        some "Failed to generate embedding: Voyage AI API returned status 401: Unauthorized"⟩ ∧
    vectorSearchMovies (some "test") none (some "key") (.httpError 500 "Internal Server Error") =
      .respond ⟨500, "Error performing vector search", some "VECTOR_SEARCH_ERROR",
        some "Failed to generate embedding: Voyage AI API returned status 500: Internal Server Error"⟩ ∧
    (500 : Nat) ≠ 401 ∧ (500 : Nat) ≠ 503 := by
  exact ⟨by decide, by decide, by decide, by decide⟩

/-- C5 counterexample: the comment-report endpoint with the empty
string as movieId (a string the identifier predicate rejects) is not
answered with 400; the empty string is falsy, so the guard skips
validation and the handler proceeds to the store with no id filter. -/
theorem commentReport_emptyMovieId_reachesStore :
    ObjectId.isValid "" = false ∧
    getMoviesWithMostRecentComments none (some "") =
      .store (.aggregateComments 10 none 20) := by
  exact ⟨by decide, by decide⟩

/-- C5 (amended): for every id string the identifier predicate rejects,
getMovieById, updateMovie, deleteMovie and findAndDeleteMovie answer
400 with code INVALID_OBJECT_ID and never reach the store, and the
comment-report endpoint does the same whenever its movieId is a
non-empty rejected string (an empty movieId is treated as absent). -/
theorem invalidObjectId_is400_beforeStore (id : String)
    (h : ObjectId.isValid id = false) :
    (getMovieById id = .respond invalidIdResponse ∧
      ∀ op : MovieStoreOp, getMovieById id ≠ .store op) ∧
    (∀ upd : Filter, updateMovie id upd = .respond invalidIdResponse ∧
      ∀ op : MovieStoreOp, updateMovie id upd ≠ .store op) ∧
    (deleteMovie id = .respond invalidIdResponse ∧
      ∀ op : MovieStoreOp, deleteMovie id ≠ .store op) ∧
    (findAndDeleteMovie id = .respond invalidIdResponse ∧
      ∀ op : MovieStoreOp, findAndDeleteMovie id ≠ .store op) ∧
    (∀ lim : Option String, id ≠ "" →
      getMoviesWithMostRecentComments lim (some id) = .respond invalidIdResponse ∧
      ∀ op : MovieStoreOp, getMoviesWithMostRecentComments lim (some id) ≠ .store op) := by
  refine ⟨⟨?_, ?_⟩, fun upd => ⟨?_, ?_⟩, ⟨?_, ?_⟩, ⟨?_, ?_⟩, fun lim hne => ⟨?_, ?_⟩⟩ <;>
    simp [getMovieById, updateMovie, deleteMovie, findAndDeleteMovie,
      getMoviesWithMostRecentComments, h] <;>
    simp [hne]

/-- C5 witness: the rejected id "zz" is refused by getMovieById and by
the comment-report endpoint. -/
theorem invalidObjectId_is400_beforeStore_witness :
    getMovieById "zz" = .respond invalidIdResponse ∧
    getMoviesWithMostRecentComments none (some "zz") = .respond invalidIdResponse := by
  have h := invalidObjectId_is400_beforeStore "zz" (by decide)
  exact ⟨h.1.1, (h.2.2.2.2 none (by decide)).1⟩

/-- C6: a delete-many request with an absent or empty filter object is
answered 400 with code MISSING_FILTER before the deleteMany call, so
the store is never reached. -/
theorem deleteMoviesBatch_missingFilter (filter : Option Filter)
    (h : filter = none ∨ filter = some []) :
    deleteMoviesBatch filter = .respond missingFilterResponse ∧
    ∀ op : MovieStoreOp, deleteMoviesBatch filter ≠ .store op := by
  rcases h with h | h <;> subst h <;> simp [deleteMoviesBatch]

/-- C6 witness: the empty filter object. -/
theorem deleteMoviesBatch_missingFilter_witness :
    deleteMoviesBatch (some []) = .respond missingFilterResponse ∧
    ∀ op : MovieStoreOp, deleteMoviesBatch (some []) ≠ .store op :=
  deleteMoviesBatch_missingFilter (some []) (Or.inr rfl)

/-- C7: when the filter of a batch update or batch delete carries an
array of string identifiers under _id.$in and any entry fails the
identifier predicate, both handlers raise before the store mutation is
invoked, so no document is modified or deleted. -/
theorem batch_invalidId_failsBeforeMutation (f u : Filter) (ids : List String)
    (bad : String) (hf : f.lookup "_id" = some (.idIn ids)) (hmem : bad ∈ ids)
    (hbad : ObjectId.isValid bad = false) (hu : u.length ≠ 0) :
    (∃ e, updateMoviesBatch (some f) (some u) = .raise e) ∧
    (∀ op : MovieStoreOp, updateMoviesBatch (some f) (some u) ≠ .store op) ∧
    (∃ e, deleteMoviesBatch (some f) = .raise e) ∧
    (∀ op : MovieStoreOp, deleteMoviesBatch (some f) ≠ .store op) := by
  obtain ⟨e, he⟩ := processIdFilter_error f ids bad hf hmem hbad
  have hfne : f.length ≠ 0 := by
    intro h0
    rw [List.length_eq_zero] at h0
    subst h0
    simp [List.lookup] at hf
  refine ⟨⟨e, ?_⟩, fun op => ?_, ⟨e, ?_⟩, fun op => ?_⟩ <;>
    simp [updateMoviesBatch, deleteMoviesBatch, hu, hfne, he]

/-- C7 witness: a one-element _id.$in array holding the rejected id
"zz". -/
theorem batch_invalidId_failsBeforeMutation_witness :
    (∃ e, updateMoviesBatch (some [("_id", FVal.idIn ["zz"])])
      (some [("title", FVal.str "x")]) = .raise e) ∧
    (∀ op : MovieStoreOp, updateMoviesBatch (some [("_id", FVal.idIn ["zz"])])
      (some [("title", FVal.str "x")]) ≠ .store op) ∧
    (∃ e, deleteMoviesBatch (some [("_id", FVal.idIn ["zz"])]) = .raise e) ∧
    (∀ op : MovieStoreOp, deleteMoviesBatch (some [("_id", FVal.idIn ["zz"])]) ≠ .store op) :=
  batch_invalidId_failsBeforeMutation [("_id", FVal.idIn ["zz"])] [("title", FVal.str "x")]
    ["zz"] "zz" (by decide) (by decide) (by decide) (by decide)

theorem digitChar_isDigit (d : Nat) : (digitChar d).isDigit = true := by
  unfold digitChar
  split <;> decide

theorem isISO8601_toISOString (t : Nat) : isISO8601 (toISOString t) = true := by
  unfold isISO8601 toISOString pad4 pad3 pad2
  simp only [isoShape, List.cons_append, List.nil_append, digitChar_isDigit,
    Bool.true_and, Bool.and_true, beq_self_eq_true, Bool.and_self]

/-- C4: every envelope built by createSuccessResponse carries data and
no error, every envelope built by createErrorResponse carries an error
and no data, and both stamp the construction-time clock reading
rendered as an ISO-8601 string. -/
theorem responseEnvelope_invariant (α : Type) (now : Nat) (d : α)
    (msgOpt : Option String) (msg : String) (code details : Option String) :
    ((createSuccessResponse now d msgOpt).success = true ∧
     (createSuccessResponse now d msgOpt).data = some d ∧
     (createSuccessResponse now d msgOpt).error = none ∧
     (createSuccessResponse now d msgOpt).timestamp = toISOString now ∧
     isISO8601 ((createSuccessResponse now d msgOpt).timestamp) = true) ∧
    ((createErrorResponse now msg code details : ApiResponse α).success = false ∧
     (createErrorResponse now msg code details : ApiResponse α).data = none ∧
     (createErrorResponse now msg code details : ApiResponse α).error =
       some ⟨msg, code, details⟩ ∧
     (createErrorResponse now msg code details : ApiResponse α).timestamp = toISOString now ∧
     isISO8601 ((createErrorResponse now msg code details : ApiResponse α).timestamp) = true) := by
  refine ⟨⟨rfl, rfl, rfl, rfl, ?_⟩, ⟨rfl, rfl, rfl, rfl, ?_⟩⟩ <;>
    exact isISO8601_toISOString now

/-- C8: the $vectorSearch stage built by vectorSearchMovies requests
limit times 20 candidates and at most limit matches, and the merged
final result list is sorted descending by similarity score and is a
permutation of the score-attached re-fetch rows, for every order in
which the re-fetch returns them. -/
theorem vectorSearch_pipeline_and_sortedResults (limitNum : Int) (vec : List ℚ)
    (hits : List VectorHit) (movies movies2 : List FetchedMovie) :
    (buildVectorSearchPipeline limitNum vec).numCandidates = limitNum * 20 ∧
    (buildVectorSearchPipeline limitNum vec).limit = limitNum ∧
    List.Sorted scoreDesc (vectorSearchMovies_finalResults hits movies) ∧
    (vectorSearchMovies_finalResults hits movies).Perm
      (movies.map (attachScore (buildScoreMap hits))) ∧
    (movies.Perm movies2 →
      (vectorSearchMovies_finalResults hits movies).Perm
        (vectorSearchMovies_finalResults hits movies2)) := by
  refine ⟨rfl, rfl, List.sorted_insertionSort scoreDesc _,
    List.perm_insertionSort scoreDesc _, fun hp => ?_⟩
  exact ((List.perm_insertionSort _ _).trans (hp.map _)).trans
    (List.perm_insertionSort _ _).symm

/-- C8 witness: candidate over-fetch at limit 3, and merge of a
two-row re-fetch in either order. -/
theorem vectorSearch_pipeline_and_sortedResults_witness :
    (buildVectorSearchPipeline 3 []).numCandidates = 3 * 20 ∧
    (vectorSearchMovies_finalResults [⟨"a", 1⟩]
        [⟨"b", none, none, none, none, none, none, none⟩,
         ⟨"a", none, none, none, none, none, none, none⟩]).Perm
      (vectorSearchMovies_finalResults [⟨"a", 1⟩]
        [⟨"a", none, none, none, none, none, none, none⟩,
         ⟨"b", none, none, none, none, none, none, none⟩]) := by
  have h := vectorSearch_pipeline_and_sortedResults 3 [] [⟨"a", 1⟩]
    [⟨"b", none, none, none, none, none, none, none⟩,
     ⟨"a", none, none, none, none, none, none, none⟩]
    [⟨"a", none, none, none, none, none, none, none⟩,
     ⟨"b", none, none, none, none, none, none, none⟩]
  exact ⟨h.1, h.2.2.2.2 (by decide)⟩

/-- C10: a re-fetched movie whose identifier is absent from the
phase-1 score map is assigned score 0, stays in the merged result, and
in the descending-sorted output no zero-score row precedes a row with
positive score. -/
theorem vectorSearch_missingScore_zero (hits : List VectorHit)
    (movies : List FetchedMovie) (movie : FetchedMovie)
    (hmem : movie ∈ movies)
    (hnone : mapGet (buildScoreMap hits) movie.oid = none) :
    (attachScore (buildScoreMap hits) movie).score = 0 ∧
    attachScore (buildScoreMap hits) movie ∈ vectorSearchMovies_finalResults hits movies ∧
    ∀ i j : Fin (vectorSearchMovies_finalResults hits movies).length, i < j →
      0 < ((vectorSearchMovies_finalResults hits movies).get j).score →
      0 < ((vectorSearchMovies_finalResults hits movies).get i).score := by
  refine ⟨?_, ?_, ?_⟩
  · simp [attachScore, hnone, jsOrZero]
  · have hmm : attachScore (buildScoreMap hits) movie ∈
        movies.map (attachScore (buildScoreMap hits)) :=
      List.mem_map.mpr ⟨movie, hmem, rfl⟩
    exact ((List.perm_insertionSort scoreDesc _).mem_iff).mpr hmm
  · intro i j hij hpos
    have hs := List.sorted_insertionSort scoreDesc
      (movies.map (attachScore (buildScoreMap hits)))
    have hle := (List.pairwise_iff_get.mp hs) i j hij
    exact lt_of_lt_of_le hpos hle

/-- C10 witness: a single re-fetched movie with identifier b while the
score map only knows a. -/
theorem vectorSearch_missingScore_zero_witness :
    (attachScore (buildScoreMap [⟨"a", 1⟩])
      ⟨"b", none, none, none, none, none, none, none⟩).score = 0 ∧
    attachScore (buildScoreMap [⟨"a", 1⟩]) ⟨"b", none, none, none, none, none, none, none⟩ ∈
      vectorSearchMovies_finalResults [⟨"a", 1⟩]
        [⟨"b", none, none, none, none, none, none, none⟩] ∧
    ∀ i j : Fin (vectorSearchMovies_finalResults [⟨"a", 1⟩]
        [⟨"b", none, none, none, none, none, none, none⟩]).length, i < j →
      0 < ((vectorSearchMovies_finalResults [⟨"a", 1⟩]
        [⟨"b", none, none, none, none, none, none, none⟩]).get j).score →
      0 < ((vectorSearchMovies_finalResults [⟨"a", 1⟩]
        [⟨"b", none, none, none, none, none, none, none⟩]).get i).score :=
  vectorSearch_missingScore_zero [⟨"a", 1⟩]
    [⟨"b", none, none, none, none, none, none, none⟩]
    ⟨"b", none, none, none, none, none, none, none⟩ (by decide) (by decide)

theorem foldl_accStep_movieCount (l : List MovieDoc) (init : YearAcc) :
    (l.foldl accStep init).movieCount = init.movieCount + l.length := by
  induction l generalizing init with
  | nil => simp
  | cons d l ih =>
    rw [List.foldl_cons, ih]
    simp [accStep]
    omega

theorem foldl_accStep_ratingSum (l : List MovieDoc) (init : YearAcc) :
    (l.foldl accStep init).ratingSum =
      init.ratingSum + (l.filterMap ratingContribution).sum := by
  induction l generalizing init with
  | nil => simp
  | cons d l ih =>
    rw [List.foldl_cons, ih]
    cases h : ratingContribution d <;>
      simp [accStep, List.filterMap_cons, h] <;>
      ring

theorem foldl_accStep_ratingCount (l : List MovieDoc) (init : YearAcc) :
    (l.foldl accStep init).ratingCount =
      init.ratingCount + (l.filterMap ratingContribution).length := by
  induction l generalizing init with
  | nil => simp
  | cons d l ih =>
    rw [List.foldl_cons, ih]
    cases h : ratingContribution d <;>
      simp [accStep, List.filterMap_cons, h] <;>
      omega

theorem foldl_accStep_totalVotes (l : List MovieDoc) (init : YearAcc) :
    (l.foldl accStep init).totalVotes =
      init.totalVotes + (l.map votesContribution).sum := by
  induction l generalizing init with
  | nil => simp
  | cons d l ih =>
    rw [List.foldl_cons, ih]
    simp [accStep]
    ring

theorem foldl_accStep_highest (l : List MovieDoc) (init : YearAcc) :
    (l.foldl accStep init).highestRating =
      (l.filterMap ratingContribution).foldl optMax init.highestRating := by
  induction l generalizing init with
  | nil => simp
  | cons d l ih =>
    rw [List.foldl_cons, ih]
    cases h : ratingContribution d <;>
      cases hh : init.highestRating <;>
      simp [accStep, optMax, List.filterMap_cons, h, hh]

theorem foldl_accStep_lowest (l : List MovieDoc) (init : YearAcc) :
    (l.foldl accStep init).lowestRating =
      (l.filterMap ratingContribution).foldl optMin init.lowestRating := by
  induction l generalizing init with
  | nil => simp
  | cons d l ih =>
    rw [List.foldl_cons, ih]
    cases h : ratingContribution d <;>
      cases hh : init.lowestRating <;>
      simp [accStep, optMin, List.filterMap_cons, h, hh]

theorem foldl_optMax_spec (l : List ℚ) (v : ℚ) :
    ∃ h, l.foldl optMax (some v) = some h ∧ (h = v ∨ h ∈ l) ∧ v ≤ h ∧
      ∀ u ∈ l, u ≤ h := by
  induction l generalizing v with
  | nil => exact ⟨v, rfl, Or.inl rfl, le_refl v, by simp⟩
  | cons w l ih =>
    obtain ⟨h, hfold, hmem, hle, hall⟩ := ih (max v w)
    refine ⟨h, by simpa [optMax] using hfold, ?_, le_trans (le_max_left v w) hle, ?_⟩
    · rcases hmem with h1 | h1
      · rcases max_choice v w with hc | hc
        · exact Or.inl (h1.trans hc)
        · exact Or.inr (by rw [h1, hc]; exact List.mem_cons_self w l)
      · exact Or.inr (List.mem_cons_of_mem w h1)
    · intro u hu
      rcases List.mem_cons.mp hu with h1 | h1
      · rw [h1]; exact le_trans (le_max_right v w) hle
      · exact hall u h1

theorem foldl_optMin_spec (l : List ℚ) (v : ℚ) :
    ∃ h, l.foldl optMin (some v) = some h ∧ (h = v ∨ h ∈ l) ∧ h ≤ v ∧
      ∀ u ∈ l, h ≤ u := by
  induction l generalizing v with
  | nil => exact ⟨v, rfl, Or.inl rfl, le_refl v, by simp⟩
  | cons w l ih =>
    obtain ⟨h, hfold, hmem, hle, hall⟩ := ih (min v w)
    refine ⟨h, by simpa [optMin] using hfold, ?_, le_trans hle (min_le_left v w), ?_⟩
    · rcases hmem with h1 | h1
      · rcases min_choice v w with hc | hc
        · exact Or.inl (h1.trans hc)
        · exact Or.inr (by rw [h1, hc]; exact List.mem_cons_self w l)
      · exact Or.inr (List.mem_cons_of_mem w h1)
    · intro u hu
      rcases List.mem_cons.mp hu with h1 | h1
      · rw [h1]; exact le_trans hle (min_le_right v w)
      · exact hall u h1

theorem foldl_optMax_none_spec (l : List ℚ) :
    (l = [] → l.foldl optMax none = none) ∧
    (∀ h, l.foldl optMax none = some h → h ∈ l ∧ ∀ u ∈ l, u ≤ h) ∧
    (l ≠ [] → ∃ h, l.foldl optMax none = some h) := by
  cases l with
  | nil =>
    refine ⟨fun _ => rfl, fun h hh => ?_, fun hne => absurd rfl hne⟩
    simp at hh
  | cons w l =>
    obtain ⟨h, hf, hm, hle, hall⟩ := foldl_optMax_spec l w
    have hstep : (w :: l).foldl optMax none = l.foldl optMax (some w) := by
      simp [optMax]
    refine ⟨fun h0 => absurd h0 (List.cons_ne_nil w l), fun h0 hh0 => ?_,
      fun _ => ⟨h, hstep.trans hf⟩⟩
    rw [hstep, hf] at hh0
    obtain rfl : h0 = h := by injection hh0 with hv; exact hv.symm
    constructor
    · rcases hm with h1 | h1
      · rw [h1]; exact List.mem_cons_self w l
      · exact List.mem_cons_of_mem w h1
    · intro u hu
      rcases List.mem_cons.mp hu with h1 | h1
      · rw [h1]; exact hle
      · exact hall u h1

theorem foldl_optMin_none_spec (l : List ℚ) :
    (l = [] → l.foldl optMin none = none) ∧
    (∀ h, l.foldl optMin none = some h → h ∈ l ∧ ∀ u ∈ l, h ≤ u) ∧
    (l ≠ [] → ∃ h, l.foldl optMin none = some h) := by
  cases l with
  | nil =>
    refine ⟨fun _ => rfl, fun h hh => ?_, fun hne => absurd rfl hne⟩
    simp at hh
  | cons w l =>
    obtain ⟨h, hf, hm, hle, hall⟩ := foldl_optMin_spec l w
    have hstep : (w :: l).foldl optMin none = l.foldl optMin (some w) := by
      simp [optMin]
    refine ⟨fun h0 => absurd h0 (List.cons_ne_nil w l), fun h0 hh0 => ?_,
      fun _ => ⟨h, hstep.trans hf⟩⟩
    rw [hstep, hf] at hh0
    obtain rfl : h0 = h := by injection hh0 with hv; exact hv.symm
    constructor
    · rcases hm with h1 | h1
      · rw [h1]; exact List.mem_cons_self w l
      · exact List.mem_cons_of_mem w h1
    · intro u hu
      rcases List.mem_cons.mp hu with h1 | h1
      · rw [h1]; exact hle
      · exact hall u h1

theorem groupStats_fields (docs : List MovieDoc) (y : ℚ) :
    (groupStats docs y).year = y ∧
    (groupStats docs y).movieCount =
      (docs.filter (fun d => numVal d.year == some y)).length ∧
    (groupStats docs y).totalVotes =
      ((docs.filter (fun d => numVal d.year == some y)).map votesContribution).sum ∧
    (groupStats docs y).averageRating =
      (if ((docs.filter (fun d => numVal d.year == some y)).filterMap ratingContribution).length = 0
       then none
       else some (roundHalfEven2
         (((docs.filter (fun d => numVal d.year == some y)).filterMap ratingContribution).sum /
          (((docs.filter (fun d => numVal d.year == some y)).filterMap ratingContribution).length : ℚ)))) ∧
    (groupStats docs y).highestRating =
      ((docs.filter (fun d => numVal d.year == some y)).filterMap ratingContribution).foldl optMax none ∧
    (groupStats docs y).lowestRating =
      ((docs.filter (fun d => numVal d.year == some y)).filterMap ratingContribution).foldl optMin none := by
  refine ⟨rfl, ?_, ?_, ?_, ?_, ?_⟩
  · simp only [groupStats]
    rw [foldl_accStep_movieCount]
    simp [initYearAcc]
  · simp only [groupStats]
    rw [foldl_accStep_totalVotes]
    simp [initYearAcc]
  · simp only [groupStats]
    rw [foldl_accStep_ratingCount, foldl_accStep_ratingSum]
    simp [initYearAcc]
  · simp only [groupStats]
    rw [foldl_accStep_highest]
    simp [initYearAcc]
  · simp only [groupStats]
    rw [foldl_accStep_lowest]
    simp [initYearAcc]

/-- C9: for every collection state and every year key present among the
quality-filtered documents, the year-statistics report is sorted by
year descending and contains exactly one group for that year, whose
count is the number of movies of that year, whose average is the
2-decimal rounding of the mean of the qualifying ratings (null when no
rating qualifies), whose highest and lowest ratings are the maximum and
minimum of the qualifying ratings (null when none qualifies, so
excluded documents never contribute zero), and whose vote total is the
sum of the numeric vote counts. -/
theorem getMoviesByYearWithStats_correct (docs : List MovieDoc) (y : ℚ)
    (hy : y ∈ (eligibleDocs docs).map yearKeyOf) :
    List.Sorted yearDesc (getMoviesByYearWithStats docs) ∧
    (getMoviesByYearWithStats docs).countP (fun g => g.year == y) = 1 ∧
    ∀ g ∈ getMoviesByYearWithStats docs, g.year = y →
      g.movieCount = (yearGroup docs y).length ∧
      g.totalVotes = ((yearGroup docs y).map votesContribution).sum ∧
      g.averageRating = (if (yearRatings docs y).length = 0 then none
        else some (roundHalfEven2
          ((yearRatings docs y).sum / ((yearRatings docs y).length : ℚ)))) ∧
      (yearRatings docs y = [] → g.highestRating = none ∧ g.lowestRating = none) ∧
      (∀ h, g.highestRating = some h →
        h ∈ yearRatings docs y ∧ ∀ v ∈ yearRatings docs y, v ≤ h) ∧
      (∀ m, g.lowestRating = some m →
        m ∈ yearRatings docs y ∧ ∀ v ∈ yearRatings docs y, m ≤ v) ∧
      (yearRatings docs y ≠ [] →
        g.highestRating.isSome = true ∧ g.lowestRating.isSome = true) := by
  have hperm := List.perm_insertionSort yearDesc
    (((eligibleDocs docs).map yearKeyOf).dedup.map (groupStats (eligibleDocs docs)))
  refine ⟨List.sorted_insertionSort yearDesc _, ?_, ?_⟩
  · have h1 : (getMoviesByYearWithStats docs).countP (fun g => g.year == y) =
        (((eligibleDocs docs).map yearKeyOf).dedup.map
          (groupStats (eligibleDocs docs))).countP (fun g => g.year == y) :=
      List.Perm.countP_eq _ hperm
    rw [h1, List.countP_map]
    have h2 : List.countP ((fun g => g.year == y) ∘ groupStats (eligibleDocs docs))
        ((eligibleDocs docs).map yearKeyOf).dedup =
        List.countP (fun k => k == y) ((eligibleDocs docs).map yearKeyOf).dedup := by
      refine List.countP_congr ?_
      intro k hk
      simp [groupStats]
    rw [h2]
    exact List.count_eq_one_of_mem (List.nodup_dedup _) (List.mem_dedup.mpr hy)
  · intro g hg hgy
    have hg2 : g ∈ ((eligibleDocs docs).map yearKeyOf).dedup.map
        (groupStats (eligibleDocs docs)) := (hperm.mem_iff).mp hg
    obtain ⟨k, hk, hgk⟩ := List.mem_map.mp hg2
    have hky : k = y := by
      rw [← hgy, ← hgk]
      rfl
    subst hky
    subst hgk
    have hf := groupStats_fields (eligibleDocs docs) k
    have e1 : (groupStats (eligibleDocs docs) k).highestRating =
        (yearRatings docs k).foldl optMax none := hf.2.2.2.2.1
    have e2 : (groupStats (eligibleDocs docs) k).lowestRating =
        (yearRatings docs k).foldl optMin none := hf.2.2.2.2.2
    have hmax := foldl_optMax_none_spec (yearRatings docs k)
    have hmin := foldl_optMin_none_spec (yearRatings docs k)
    refine ⟨hf.2.1, hf.2.2.1, hf.2.2.2.1, fun h0 => ?_, fun h hh => ?_, fun m hm => ?_,
      fun hne => ?_⟩
    · rw [e1, e2, h0]
      exact ⟨rfl, rfl⟩
    · rw [e1] at hh
      exact hmax.2.1 h hh
    · rw [e2] at hm
      exact hmin.2.1 m hm
    · obtain ⟨h, hh⟩ := hmax.2.2 hne
      obtain ⟨m, hm⟩ := hmin.2.2 hne
      rw [e1, e2, hh, hm]
      exact ⟨rfl, rfl⟩

/-- C9 witness: two movies of year 2023 with double ratings 8 and 9 and
votes 100 and 200. -/
theorem getMoviesByYearWithStats_correct_witness :
    List.Sorted yearDesc (getMoviesByYearWithStats
      [⟨.int 2023, .double 8, .int 100⟩, ⟨.int 2023, .double 9, .int 200⟩]) ∧
    (getMoviesByYearWithStats
      [⟨.int 2023, .double 8, .int 100⟩, ⟨.int 2023, .double 9, .int 200⟩]).countP
        (fun g => g.year == (2023 : ℚ)) = 1 ∧
    ∀ g ∈ getMoviesByYearWithStats
      [⟨.int 2023, .double 8, .int 100⟩, ⟨.int 2023, .double 9, .int 200⟩],
      g.year = (2023 : ℚ) →
      g.movieCount = (yearGroup
        [⟨.int 2023, .double 8, .int 100⟩, ⟨.int 2023, .double 9, .int 200⟩] 2023).length ∧
      g.totalVotes = ((yearGroup
        [⟨.int 2023, .double 8, .int 100⟩, ⟨.int 2023, .double 9, .int 200⟩] 2023).map
          votesContribution).sum ∧
      g.averageRating = (if (yearRatings
          [⟨.int 2023, .double 8, .int 100⟩, ⟨.int 2023, .double 9, .int 200⟩] 2023).length = 0
        then none
        else some (roundHalfEven2
          ((yearRatings
            [⟨.int 2023, .double 8, .int 100⟩, ⟨.int 2023, .double 9, .int 200⟩] 2023).sum /
           ((yearRatings
            [⟨.int 2023, .double 8, .int 100⟩, ⟨.int 2023, .double 9, .int 200⟩] 2023).length : ℚ)))) ∧
      (yearRatings
          [⟨.int 2023, .double 8, .int 100⟩, ⟨.int 2023, .double 9, .int 200⟩] 2023 = [] →
        g.highestRating = none ∧ g.lowestRating = none) ∧
      (∀ h, g.highestRating = some h →
        h ∈ yearRatings
          [⟨.int 2023, .double 8, .int 100⟩, ⟨.int 2023, .double 9, .int 200⟩] 2023 ∧
        ∀ v ∈ yearRatings
          [⟨.int 2023, .double 8, .int 100⟩, ⟨.int 2023, .double 9, .int 200⟩] 2023, v ≤ h) ∧
      (∀ m, g.lowestRating = some m →
        m ∈ yearRatings
          [⟨.int 2023, .double 8, .int 100⟩, ⟨.int 2023, .double 9, .int 200⟩] 2023 ∧
        ∀ v ∈ yearRatings
          [⟨.int 2023, .double 8, .int 100⟩, ⟨.int 2023, .double 9, .int 200⟩] 2023, m ≤ v) ∧
      (yearRatings
          [⟨.int 2023, .double 8, .int 100⟩, ⟨.int 2023, .double 9, .int 200⟩] 2023 ≠ [] →
        g.highestRating.isSome = true ∧ g.lowestRating.isSome = true) :=
  getMoviesByYearWithStats_correct
    [⟨.int 2023, .double 8, .int 100⟩, ⟨.int 2023, .double 9, .int 200⟩] 2023 (by decide)

end Mflix
